import Mathlib

/-!
Shallow embedding of the NDVI pipeline in src/app.py (Sentinel-2 Crop Stress
Detection API).

Modelling conventions:
* Python floats are modelled as rationals (all comparisons in the code are
  order comparisons against exactly representable decimal constants, so the
  ordering behaviour is preserved).
* The Earth Engine provider is abstracted as a per-request snapshot
  (EEProvider): the size of the filtered collection, the band names of the
  median composite, the dictionary returned by reduceRegion(...).getInfo(),
  the thumbnail URL and the decoded thumbnail image.
* Remote/provider interactions are recorded in an event trace (EEEvent), so
  that claims of the form "X happens before Y" or "no remote call occurs"
  become statements about the trace.
* fastapi.HTTPException is modelled as HTTPExc (status code + detail).
  Crucially, fastapi.HTTPException subclasses Exception, so the blanket
  `except Exception as e` in get_ndvi_image_url (app.py line 95) catches the
  HTTPExceptions raised at lines 58 and 64 and rewraps them as status 500
  with detail "Error processing NDVI: " ++ str(e); str(e) follows
  starlette.exceptions.HTTPException.__str__, i.e. "<status>: <detail>".
* PIL images are modelled by their mode string and pixel dimensions; the
  PIL operations performed by download_and_convert_image are recorded as an
  ImgOp trace so resampling-vs-cropping is observable.
-/

/-- Request body of both endpoints (Pydantic model LocationRequest,
app.py lines 24-31; defaults 50 / 90 / 20 / 800 / 600). -/
structure LocationRequest where
  latitude : ℚ
  longitude : ℚ
  buffer_distance : Int
  days_back : Int
  cloud_threshold : Int
  image_width : Int
  image_height : Int
deriving DecidableEq

/-- fastapi.HTTPException: status code and detail message. -/
structure HTTPExc where
  status : Nat
  detail : String
deriving DecidableEq

/-- str(e) for a fastapi/starlette HTTPException: "<status_code>: <detail>". -/
def strHTTPException (e : HTTPExc) : String :=
  toString e.status ++ ": " ++ e.detail

/-- Earth Engine reducer expressions, as combined in app.py lines 70-75. -/
inductive Reducer where
  | mean : Reducer
  | minMax : Reducer
  | stdDev : Reducer
  | combine : Reducer → Reducer → Bool → Reducer
deriving DecidableEq

/-- The reducer passed to reduceRegion in app.py lines 71-75:
ee.Reducer.mean().combine(ee.Reducer.minMax().combine(ee.Reducer.stdDev(),
sharedInputs=True), sharedInputs=True). -/
def ndviReducer : Reducer :=
  Reducer.combine Reducer.mean
    (Reducer.combine Reducer.minMax Reducer.stdDev true) true

/-- The statistics produced by a reducer, in order. -/
def reducerOutputs : Reducer → List String
  | Reducer.mean => ["mean"]
  | Reducer.minMax => ["min", "max"]
  | Reducer.stdDev => ["stdDev"]
  | Reducer.combine r1 r2 _ => reducerOutputs r1 ++ reducerOutputs r2

/-- True when every combine node of the reducer tree was built with
sharedInputs=True, i.e. all component reducers run over the same pixel
sample set. -/
def allSharedInputs : Reducer → Bool
  | Reducer.mean => true
  | Reducer.minMax => true
  | Reducer.stdDev => true
  | Reducer.combine r1 r2 s => s && allSharedInputs r1 && allSharedInputs r2

/-- Visualization parameters for getThumbURL (app.py lines 82-88). -/
structure VisParams where
  min : ℚ
  max : ℚ
  palette : List String
  dimensions : String
  format : String
deriving DecidableEq

/-- The constant vis_params dictionary of app.py lines 82-88. -/
def ndviVisParams : VisParams :=
  VisParams.mk 0 1 ["red", "orange", "yellow", "green", "darkgreen"]
    "800x600" "png"

/-- A decoded PIL image: color mode and pixel dimensions. -/
structure PILImage where
  mode : String
  width : Int
  height : Int
deriving DecidableEq

/-- Per-request snapshot of the Earth Engine provider state. -/
structure EEProvider where
  collectionSize : Nat
  bandNames : List String
  statsDict : List (String × ℚ)
  thumbURL : String
  thumbImage : PILImage
deriving DecidableEq

/-- Remote/provider interactions performed by the pipeline, in order. -/
inductive EEEvent where
  | catalogQuery : EEEvent
  | collectionSizeQuery : EEEvent
  | medianComposite : EEEvent
  | bandNamesQuery : EEEvent
  | ndviCompute : EEEvent
  | reduceRegionCall : Reducer → Nat → Nat → EEEvent
  | getThumbURL : VisParams → EEEvent
  | imageDownload : String → Nat → EEEvent
deriving DecidableEq

/-- Discriminator for reduceRegion events. -/
def isReduceEvent : EEEvent → Bool
  | EEEvent.reduceRegionCall _ _ _ => true
  | _ => false

/-- First-match lookup in the reduceRegion result dictionary. -/
def dictLookup (d : List (String × ℚ)) (k : String) : Option ℚ :=
  match d with
  | [] => none
  | kv :: rest => if kv.1 = k then some kv.2 else dictLookup rest k

/-- Python dict.get(k, default). -/
def dictGet (d : List (String × ℚ)) (k : String) (d0 : ℚ) : ℚ :=
  match dictLookup d k with
  | some v => v
  | none => d0

/-- The health classification of app.py lines 192-203: health_status starts
as "Unknown" and is then reassigned by an if/elif/else chain whose final
else makes every branch reassign it, so "Unknown" never survives. -/
def classify_health (mean_ndvi : ℚ) : String :=
  if mean_ndvi < 0.2 then "Severe Stress / Bare Soil"
  else if mean_ndvi < 0.4 then "Stressed Vegetation"
  else if mean_ndvi < 0.6 then "Moderate Health"
  else if mean_ndvi < 0.8 then "Healthy"
  else "Very Healthy"

/-- Body of the try block of get_ndvi_image_url (app.py lines 42-93):
query the filtered collection size; raise HTTPException(404, ...) when it is
zero; otherwise build the median composite, query its band names, raise
HTTPException(400, ...) when B8 or B4 is absent; otherwise compute NDVI,
reduce it over the AOI at scale 10 with maxPixels 1e9, and obtain the
thumbnail URL under the constant vis_params. Returns the trace of provider
interactions together with the result of the block. -/
def get_ndvi_image_url_body (p : EEProvider) :
    List EEEvent × Except HTTPExc (String × List (String × ℚ)) :=
  if p.collectionSize = 0 then
    ([EEEvent.catalogQuery, EEEvent.collectionSizeQuery],
     Except.error (HTTPExc.mk 404
       "No suitable Sentinel-2 images found for the specified criteria"))
  else if "B8" ∉ p.bandNames ∨ "B4" ∉ p.bandNames then
    ([EEEvent.catalogQuery, EEEvent.collectionSizeQuery,
      EEEvent.medianComposite, EEEvent.bandNamesQuery],
     Except.error (HTTPExc.mk 400
       "Required bands (B4 and B8) not found in the image"))
  else
    ([EEEvent.catalogQuery, EEEvent.collectionSizeQuery,
      EEEvent.medianComposite, EEEvent.bandNamesQuery, EEEvent.ndviCompute,
      EEEvent.reduceRegionCall ndviReducer 10 1000000000,
      EEEvent.getThumbURL ndviVisParams],
     Except.ok (p.thumbURL, p.statsDict))

/-- get_ndvi_image_url (app.py lines 40-96). The whole body sits in a try
whose handler is `except Exception as e: raise HTTPException(500, "Error
processing NDVI: " + str(e))`. Since fastapi.HTTPException subclasses
Exception, the handler also catches the HTTPExceptions raised inside the
body and rewraps them with status 500. -/
def get_ndvi_image_url (p : EEProvider) :
    List EEEvent × Except HTTPExc (String × List (String × ℚ)) :=
  match get_ndvi_image_url_body p with
  | (evs, Except.ok v) => (evs, Except.ok v)
  | (evs, Except.error e) =>
    (evs, Except.error (HTTPExc.mk 500
      ("Error processing NDVI: " ++ strHTTPException e)))

/-- PIL resampling filters (Image.Resampling in app.py line 113). -/
inductive ResampleFilter where
  | nearest : ResampleFilter
  | bilinear : ResampleFilter
  | bicubic : ResampleFilter
  | lanczos : ResampleFilter
deriving DecidableEq

/-- PIL operations that download_and_convert_image could perform on the
decoded image; the embedding records which ones actually run. -/
inductive ImgOp where
  | convert : String → ImgOp
  | resize : Int → Int → ResampleFilter → ImgOp
  | crop : Int → Int → Int → Int → ImgOp
  | save : String → Nat → ImgOp
deriving DecidableEq

/-- download_and_convert_image (app.py lines 98-123), applied to the decoded
input image (a successful download and decode is assumed; the network fetch
is recorded by the caller as an imageDownload event). Converts to RGB when
the mode differs, resizes with LANCZOS when the size differs from
(width, height), and saves as JPEG at quality 95. Returns the list of PIL
operations performed and the final image. -/
def download_and_convert_image (img : PILImage) (width height : Int) :
    List ImgOp × PILImage :=
  let step1 :=
    if img.mode ≠ "RGB" then
      ([ImgOp.convert "RGB"], PILImage.mk "RGB" img.width img.height)
    else ([], img)
  let step2 :=
    if (step1.2.width, step1.2.height) ≠ (width, height) then
      (step1.1 ++ [ImgOp.resize width height ResampleFilter.lanczos],
       PILImage.mk step1.2.mode width height)
    else (step1.1, step1.2)
  (step2.1 ++ [ImgOp.save "JPEG" 95], step2.2)

/-- The location dictionary of the stats response (app.py lines 208-212). -/
structure LocationOut where
  latitude : ℚ
  longitude : ℚ
  buffer_distance_m : Int
deriving DecidableEq

/-- The ndvi_stats dictionary of the stats response (app.py lines 213-220). -/
structure NDVIStatsOut where
  mean_ndvi : ℚ
  min_ndvi : ℚ
  max_ndvi : ℚ
  std_ndvi : ℚ
  health_status : String
  analysis_period_days : Int
deriving DecidableEq

/-- NDVIResponse (app.py lines 33-37, built at lines 205-221). -/
structure NDVIResponse where
  status : String
  message : String
  location : LocationOut
  ndvi_stats : NDVIStatsOut
deriving DecidableEq

/-- HTTPException(400, ...) for latitude outside [-90, 90]. -/
def invalidLatitudeError : HTTPExc :=
  HTTPExc.mk 400 "Invalid latitude. Must be between -90 and 90"

/-- HTTPException(400, ...) for longitude outside [-180, 180]. -/
def invalidLongitudeError : HTTPExc :=
  HTTPExc.mk 400 "Invalid longitude. Must be between -180 and 180"

/-- POST /get-ndvi-stats (app.py lines 171-226): validate coordinates, call
get_ndvi_image_url, interpret the mean NDVI and build the response. The
endpoint-level `except HTTPException: raise` re-raises HTTPExceptions
unchanged, which the Except error channel models directly. Returns the
provider-interaction trace together with the HTTP outcome. -/
def get_ndvi_stats (req : LocationRequest) (p : EEProvider) :
    List EEEvent × Except HTTPExc NDVIResponse :=
  if ¬(-90 ≤ req.latitude ∧ req.latitude ≤ 90) then
    ([], Except.error invalidLatitudeError)
  else if ¬(-180 ≤ req.longitude ∧ req.longitude ≤ 180) then
    ([], Except.error invalidLongitudeError)
  else
    match get_ndvi_image_url p with
    | (evs, Except.error e) => (evs, Except.error e)
    | (evs, Except.ok v) =>
      let ndvi_stats := v.2
      let mean_ndvi := dictGet ndvi_stats "NDVI_mean" 0
      (evs, Except.ok (NDVIResponse.mk "success"
        "NDVI analysis completed successfully"
        (LocationOut.mk req.latitude req.longitude req.buffer_distance)
        (NDVIStatsOut.mk mean_ndvi
          (dictGet ndvi_stats "NDVI_min" 0)
          (dictGet ndvi_stats "NDVI_max" 0)
          (dictGet ndvi_stats "NDVI_stdDev" 0)
          (classify_health mean_ndvi)
          req.days_back)))

/-- POST /generate-ndvi-image (app.py lines 134-169): validate coordinates,
call get_ndvi_image_url, then download the thumbnail (requests.get with
timeout=30) and convert it via download_and_convert_image at the requested
dimensions. Returns the provider-interaction trace, the PIL-operation trace
and the HTTP outcome (the final JPEG image content). -/
def generate_ndvi_image (req : LocationRequest) (p : EEProvider) :
    List EEEvent × List ImgOp × Except HTTPExc PILImage :=
  if ¬(-90 ≤ req.latitude ∧ req.latitude ≤ 90) then
    ([], [], Except.error invalidLatitudeError)
  else if ¬(-180 ≤ req.longitude ∧ req.longitude ≤ 180) then
    ([], [], Except.error invalidLongitudeError)
  else
    match get_ndvi_image_url p with
    | (evs, Except.error e) => (evs, [], Except.error e)
    | (evs, Except.ok v) =>
      let conv :=
        download_and_convert_image p.thumbImage req.image_width
          req.image_height
      (evs ++ [EEEvent.imageDownload v.1 30], conv.1, Except.ok conv.2)

/-- A sample decoded thumbnail image (palette mode, 256 by 256). -/
def sampleImage : PILImage := PILImage.mk "P" 256 256

/-- A sample provider snapshot with a non-empty collection, both required
bands, and all four statistics present. -/
def sampleProvider : EEProvider :=
  EEProvider.mk 3 ["B2", "B3", "B4", "B8"]
    [("NDVI_mean", 1/2), ("NDVI_min", -1/10), ("NDVI_max", 9/10),
     ("NDVI_stdDev", 1/5)]
    "url0" sampleImage

/-- A sample provider snapshot whose reduceRegion dictionary is empty. -/
def sampleProviderNoStats : EEProvider :=
  EEProvider.mk 2 ["B4", "B8"] [] "url1" sampleImage

/-- A sample valid request (lat 40, lon -100, defaults otherwise). -/
def sampleRequest : LocationRequest :=
  LocationRequest.mk 40 (-100) 50 90 20 800 600

/-- The provider-interaction trace of a fully successful pipeline run. -/
def successTrace : List EEEvent :=
  [EEEvent.catalogQuery, EEEvent.collectionSizeQuery,
   EEEvent.medianComposite, EEEvent.bandNamesQuery, EEEvent.ndviCompute,
   EEEvent.reduceRegionCall ndviReducer 10 1000000000,
   EEEvent.getThumbURL ndviVisParams]

/-- A provider snapshot whose filtered collection is empty. -/
def emptyCollectionProvider : EEProvider :=
  EEProvider.mk 0 [] [] "url2" sampleImage

/-- A provider snapshot whose composite lacks the B4 and B8 bands. -/
def missingBandsProvider : EEProvider :=
  EEProvider.mk 1 ["B2", "B3", "TCI"] [] "url3" sampleImage

/-- Helper: on a provider with a non-empty collection and both required
bands, get_ndvi_image_url succeeds with the full trace, the thumbnail URL
and the statistics dictionary. -/
theorem get_ndvi_image_url_success (p : EEProvider)
    (hsz : p.collectionSize ≠ 0)
    (hb8 : "B8" ∈ p.bandNames) (hb4 : "B4" ∈ p.bandNames) :
    get_ndvi_image_url p =
      (successTrace, Except.ok (p.thumbURL, p.statsDict)) := by
  unfold get_ndvi_image_url get_ndvi_image_url_body successTrace
  rw [if_neg hsz,
    if_neg (not_or.mpr ⟨not_not_intro hb8, not_not_intro hb4⟩)]

/-- Helper: on a valid-coordinate request and a successful provider run,
get_ndvi_stats returns the full trace and the response literal. -/
theorem get_ndvi_stats_success (req : LocationRequest) (p : EEProvider)
    (hlat : -90 ≤ req.latitude ∧ req.latitude ≤ 90)
    (hlon : -180 ≤ req.longitude ∧ req.longitude ≤ 180)
    (hsz : p.collectionSize ≠ 0)
    (hb8 : "B8" ∈ p.bandNames) (hb4 : "B4" ∈ p.bandNames) :
    get_ndvi_stats req p =
      (successTrace, Except.ok (NDVIResponse.mk "success"
        "NDVI analysis completed successfully"
        (LocationOut.mk req.latitude req.longitude req.buffer_distance)
        (NDVIStatsOut.mk (dictGet p.statsDict "NDVI_mean" 0)
          (dictGet p.statsDict "NDVI_min" 0)
          (dictGet p.statsDict "NDVI_max" 0)
          (dictGet p.statsDict "NDVI_stdDev" 0)
          (classify_health (dictGet p.statsDict "NDVI_mean" 0))
          req.days_back))) := by
  unfold get_ndvi_stats
  rw [if_neg (not_not_intro hlat), if_neg (not_not_intro hlon),
    get_ndvi_image_url_success p hsz hb8 hb4]

/-- Helper: the normalized image is always exactly RGB at the target
dimensions. -/
theorem download_and_convert_image_result (img : PILImage) (w h : Int) :
    (download_and_convert_image img w h).2 = PILImage.mk "RGB" w h := by
  cases img with
  | mk mode iw ih =>
    unfold download_and_convert_image
    by_cases hm : mode = "RGB" <;>
      by_cases hs : (iw, ih) = (w, h) <;>
        simp_all [Prod.ext_iff]

/-- Helper: on a valid-coordinate request and a successful provider run,
generate_ndvi_image downloads the thumbnail and returns the converted
image. -/
theorem generate_ndvi_image_success (req : LocationRequest)
    (p : EEProvider)
    (hlat : -90 ≤ req.latitude ∧ req.latitude ≤ 90)
    (hlon : -180 ≤ req.longitude ∧ req.longitude ≤ 180)
    (hsz : p.collectionSize ≠ 0)
    (hb8 : "B8" ∈ p.bandNames) (hb4 : "B4" ∈ p.bandNames) :
    generate_ndvi_image req p =
      (successTrace ++ [EEEvent.imageDownload p.thumbURL 30],
       (download_and_convert_image p.thumbImage req.image_width
         req.image_height).1,
       Except.ok (download_and_convert_image p.thumbImage req.image_width
         req.image_height).2) := by
  unfold generate_ndvi_image
  rw [if_neg (not_not_intro hlat), if_neg (not_not_intro hlon),
    get_ndvi_image_url_success p hsz hb8 hb4]

/-- C1: the health classification is a deterministic, total function of the
mean NDVI value: every mean is sent to exactly one of the five labels by
the thresholds evaluated in order with first match winning (mean < 0.2 is
Severe Stress / Bare Soil, then < 0.4 Stressed Vegetation, then < 0.6
Moderate Health, then < 0.8 Healthy, otherwise Very Healthy); in
particular 0.2 is classified Stressed Vegetation, 0.8 is classified Very
Healthy, and the placeholder label Unknown is never returned. -/
theorem classify_health_spec (m : ℚ) :
    (classify_health m = "Severe Stress / Bare Soil" ∨
     classify_health m = "Stressed Vegetation" ∨
     classify_health m = "Moderate Health" ∨
     classify_health m = "Healthy" ∨
     classify_health m = "Very Healthy") ∧
    classify_health m ≠ "Unknown" ∧
    (m < 0.2 → classify_health m = "Severe Stress / Bare Soil") ∧
    (0.2 ≤ m → m < 0.4 → classify_health m = "Stressed Vegetation") ∧
    (0.4 ≤ m → m < 0.6 → classify_health m = "Moderate Health") ∧
    (0.6 ≤ m → m < 0.8 → classify_health m = "Healthy") ∧
    (0.8 ≤ m → classify_health m = "Very Healthy") ∧
    classify_health 0.2 = "Stressed Vegetation" ∧
    classify_health 0.8 = "Very Healthy" := by
  unfold classify_health
  refine ⟨?_, ?_, ?_, ?_, ?_, ?_, ?_, by norm_num, by norm_num⟩
  · split_ifs <;> simp
  · split_ifs <;> simp
  · intro h1
    rw [if_pos h1]
  · intro h1 h2
    rw [if_neg (not_lt.mpr h1), if_pos h2]
  · intro h1 h2
    rw [if_neg (not_lt.mpr (by linarith)), if_neg (not_lt.mpr h1),
      if_pos h2]
  · intro h1 h2
    rw [if_neg (not_lt.mpr (by linarith)),
      if_neg (not_lt.mpr (by linarith)), if_neg (not_lt.mpr h1),
      if_pos h2]
  · intro h1
    rw [if_neg (not_lt.mpr (by linarith)),
      if_neg (not_lt.mpr (by linarith)),
      if_neg (not_lt.mpr (by linarith)), if_neg (not_lt.mpr h1)]

/-- Witness for C1 at mean 0.5: the theorem applied at a concrete input. -/
theorem classify_health_spec_witness :
    classify_health 0.5 = "Moderate Health" ∧
    classify_health 0.5 ≠ "Unknown" := by
  have h := classify_health_spec 0.5
  exact ⟨h.2.2.2.2.1 (by norm_num) (by norm_num), h.2.1⟩

/-- C3: for every decoded input image and target dimensions, the
normalization step returns an image of exactly the target width and height
in three-channel RGB, never performs a crop, and, whenever the decoded
dimensions differ from the target, reaches the target by a LANCZOS
resampling operation. -/
theorem download_and_convert_image_spec (img : PILImage) (w h : Int) :
    (download_and_convert_image img w h).2 = PILImage.mk "RGB" w h ∧
    (∀ a b c d, ImgOp.crop a b c d ∉ (download_and_convert_image img w h).1) ∧
    ((img.width, img.height) ≠ (w, h) →
      ImgOp.resize w h ResampleFilter.lanczos ∈
        (download_and_convert_image img w h).1) := by
  refine ⟨download_and_convert_image_result img w h, ?_, ?_⟩
  · intro a b c d
    unfold download_and_convert_image
    by_cases hm : img.mode = "RGB" <;>
      by_cases hs : (img.width, img.height) = (w, h) <;> simp_all
  · intro hs
    unfold download_and_convert_image
    by_cases hm : img.mode = "RGB" <;> simp_all

/-- Witness for C3 on a 100 by 50 palette-mode image normalized to
800 by 600. -/
theorem download_and_convert_image_spec_witness :
    (download_and_convert_image (PILImage.mk "P" 100 50) 800 600).2 =
      PILImage.mk "RGB" 800 600 ∧
    ImgOp.resize 800 600 ResampleFilter.lanczos ∈
      (download_and_convert_image (PILImage.mk "P" 100 50) 800 600).1 := by
  have h := download_and_convert_image_spec (PILImage.mk "P" 100 50) 800 600
  exact ⟨h.1, h.2.2 (by decide)⟩

/-- C5: a request whose latitude is outside [-90, 90] or whose longitude is
outside [-180, 180] is rejected by both endpoints with a status-400
invalid-coordinate error, with an empty provider-interaction trace and an
empty image-operation trace: no catalog query, compositing, statistics
reduction, thumbnail rendering or image download happens. -/
theorem invalid_coordinates_rejected_before_remote_calls
    (req : LocationRequest) (p : EEProvider)
    (h : ¬(-90 ≤ req.latitude ∧ req.latitude ≤ 90) ∨
         ¬(-180 ≤ req.longitude ∧ req.longitude ≤ 180)) :
    (get_ndvi_stats req p).1 = [] ∧
    (∃ e, (get_ndvi_stats req p).2 = Except.error e ∧ e.status = 400 ∧
      (e = invalidLatitudeError ∨ e = invalidLongitudeError)) ∧
    (generate_ndvi_image req p).1 = [] ∧
    (generate_ndvi_image req p).2.1 = [] ∧
    (∃ e, (generate_ndvi_image req p).2.2 = Except.error e ∧
      e.status = 400 ∧
      (e = invalidLatitudeError ∨ e = invalidLongitudeError)) := by
  by_cases hlat : -90 ≤ req.latitude ∧ req.latitude ≤ 90
  · have hlon : ¬(-180 ≤ req.longitude ∧ req.longitude ≤ 180) :=
      h.resolve_left (not_not_intro hlat)
    have e1 : get_ndvi_stats req p =
        ([], Except.error invalidLongitudeError) := by
      unfold get_ndvi_stats
      rw [if_neg (not_not_intro hlat), if_pos hlon]
    have e2 : generate_ndvi_image req p =
        ([], [], Except.error invalidLongitudeError) := by
      unfold generate_ndvi_image
      rw [if_neg (not_not_intro hlat), if_pos hlon]
    rw [e1, e2]
    exact ⟨rfl, ⟨invalidLongitudeError, rfl, rfl, Or.inr rfl⟩, rfl, rfl,
      ⟨invalidLongitudeError, rfl, rfl, Or.inr rfl⟩⟩
  · have e1 : get_ndvi_stats req p =
        ([], Except.error invalidLatitudeError) := by
      unfold get_ndvi_stats
      rw [if_pos hlat]
    have e2 : generate_ndvi_image req p =
        ([], [], Except.error invalidLatitudeError) := by
      unfold generate_ndvi_image
      rw [if_pos hlat]
    rw [e1, e2]
    exact ⟨rfl, ⟨invalidLatitudeError, rfl, rfl, Or.inl rfl⟩, rfl, rfl,
      ⟨invalidLatitudeError, rfl, rfl, Or.inl rfl⟩⟩

/-- Witness for C5 at latitude 95: the theorem applied at a concrete
out-of-range request. -/
theorem invalid_coordinates_rejected_witness :
    (get_ndvi_stats (LocationRequest.mk 95 0 50 90 20 800 600)
      sampleProvider).1 = [] ∧
    (generate_ndvi_image (LocationRequest.mk 95 0 50 90 20 800 600)
      sampleProvider).1 = [] := by
  have h := invalid_coordinates_rejected_before_remote_calls
    (LocationRequest.mk 95 0 50 90 20 800 600) sampleProvider
    (Or.inl (by intro hc; norm_num at hc))
  exact ⟨h.1, h.2.2.1⟩

/-- C2 (code evidence): with an empty filtered collection the pipeline
stops before compositing (no medianComposite event) and returns an error,
but the error the client sees is the generic status-500 computation-error
wrapper, not the distinct status-404 NoImageryFound error: the blanket
except-Exception handler of get_ndvi_image_url catches the
HTTPException(404) raised at app.py line 58 and rewraps it. -/
theorem empty_collection_surfaced_as_generic_500 :
    get_ndvi_stats sampleRequest emptyCollectionProvider =
      ([EEEvent.catalogQuery, EEEvent.collectionSizeQuery],
       Except.error (HTTPExc.mk 500
         "Error processing NDVI: 404: No suitable Sentinel-2 images found for the specified criteria")) ∧
    EEEvent.medianComposite ∉
      (get_ndvi_stats sampleRequest emptyCollectionProvider).1 := by
  have e1 : get_ndvi_stats sampleRequest emptyCollectionProvider =
      ([EEEvent.catalogQuery, EEEvent.collectionSizeQuery],
       Except.error (HTTPExc.mk 500
         "Error processing NDVI: 404: No suitable Sentinel-2 images found for the specified criteria")) := by
    unfold get_ndvi_stats get_ndvi_image_url get_ndvi_image_url_body
    rw [if_neg (not_not_intro (by norm_num [sampleRequest])),
      if_neg (not_not_intro (by norm_num [sampleRequest])),
      if_pos (show emptyCollectionProvider.collectionSize = 0 from rfl)]
    rfl
  refine ⟨e1, ?_⟩
  rw [e1]
  decide

/-- C4 (code evidence): with the near-infrared and red bands absent from
the composite, the pipeline stops before the NDVI computation (no
ndviCompute and no reduceRegionCall event) and returns an error, but the
error the client sees is the generic status-500 computation-error wrapper,
not the distinct status-400 MissingRequiredBands error: the blanket
except-Exception handler of get_ndvi_image_url catches the
HTTPException(400) raised at app.py line 64 and rewraps it. -/
theorem missing_bands_surfaced_as_generic_500 :
    get_ndvi_stats sampleRequest missingBandsProvider =
      ([EEEvent.catalogQuery, EEEvent.collectionSizeQuery,
        EEEvent.medianComposite, EEEvent.bandNamesQuery],
       Except.error (HTTPExc.mk 500
         "Error processing NDVI: 400: Required bands (B4 and B8) not found in the image")) ∧
    EEEvent.ndviCompute ∉
      (get_ndvi_stats sampleRequest missingBandsProvider).1 ∧
    (∀ r s m, EEEvent.reduceRegionCall r s m ∉
      (get_ndvi_stats sampleRequest missingBandsProvider).1) := by
  have e1 : get_ndvi_stats sampleRequest missingBandsProvider =
      ([EEEvent.catalogQuery, EEEvent.collectionSizeQuery,
        EEEvent.medianComposite, EEEvent.bandNamesQuery],
       Except.error (HTTPExc.mk 500
         "Error processing NDVI: 400: Required bands (B4 and B8) not found in the image")) := by
    unfold get_ndvi_stats get_ndvi_image_url get_ndvi_image_url_body
    rw [if_neg (not_not_intro (by norm_num [sampleRequest])),
      if_neg (not_not_intro (by norm_num [sampleRequest])),
      if_neg (show ¬missingBandsProvider.collectionSize = 0 by decide),
      if_pos (Or.inl
        (show "B8" ∉ missingBandsProvider.bandNames by decide))]
    rfl
  refine ⟨e1, ?_, ?_⟩
  · rw [e1]
    decide
  · intro r s m
    rw [e1]
    simp

/-- C6: in a successful run, the zonal reduction of the NDVI raster is a
single reduceRegion call at sampling scale 10 meters/pixel with a
maxPixels budget of 10^9, whose reducer computes mean, min, max and
standard deviation with sharedInputs=True at every combine node, so all
four statistics come from the same pixel sample set in one pass. -/
theorem reduce_region_call_spec (p : EEProvider)
    (hsz : p.collectionSize ≠ 0)
    (hb8 : "B8" ∈ p.bandNames) (hb4 : "B4" ∈ p.bandNames) :
    EEEvent.reduceRegionCall ndviReducer 10 1000000000 ∈
      (get_ndvi_image_url p).1 ∧
    (∀ r s m, EEEvent.reduceRegionCall r s m ∈ (get_ndvi_image_url p).1 →
      r = ndviReducer ∧ s = 10 ∧ m = 1000000000) ∧
    ((get_ndvi_image_url p).1.filter isReduceEvent).length = 1 ∧
    allSharedInputs ndviReducer = true ∧
    reducerOutputs ndviReducer = ["mean", "min", "max", "stdDev"] := by
  rw [get_ndvi_image_url_success p hsz hb8 hb4]
  refine ⟨?_, ?_, rfl, rfl, rfl⟩
  · simp [successTrace]
  · intro r s m hm
    simp [successTrace] at hm
    exact hm

/-- Witness for C6 on a concrete successful provider snapshot. -/
theorem reduce_region_call_spec_witness :
    EEEvent.reduceRegionCall ndviReducer 10 1000000000 ∈
      (get_ndvi_image_url sampleProvider).1 ∧
    allSharedInputs ndviReducer = true := by
  have h := reduce_region_call_spec sampleProvider (by decide) (by decide)
    (by decide)
  exact ⟨h.1, h.2.2.2.1⟩

/-- C7: in the stats endpoint, when the provider statistics dictionary has
no NDVI_mean entry, the mean defaults to 0 before classification, so the
response reports mean_ndvi = 0 and health_status Severe Stress / Bare
Soil. -/
theorem missing_mean_defaults_to_zero (req : LocationRequest)
    (p : EEProvider)
    (hlat : -90 ≤ req.latitude ∧ req.latitude ≤ 90)
    (hlon : -180 ≤ req.longitude ∧ req.longitude ≤ 180)
    (hsz : p.collectionSize ≠ 0)
    (hb8 : "B8" ∈ p.bandNames) (hb4 : "B4" ∈ p.bandNames)
    (hmean : dictLookup p.statsDict "NDVI_mean" = none) :
    ∃ resp, (get_ndvi_stats req p).2 = Except.ok resp ∧
      resp.ndvi_stats.mean_ndvi = 0 ∧
      resp.ndvi_stats.health_status = "Severe Stress / Bare Soil" := by
  rw [get_ndvi_stats_success req p hlat hlon hsz hb8 hb4]
  have hz : dictGet p.statsDict "NDVI_mean" 0 = 0 := by
    unfold dictGet
    rw [hmean]
  refine ⟨_, rfl, hz, ?_⟩
  show classify_health (dictGet p.statsDict "NDVI_mean" 0) = _
  rw [hz]
  unfold classify_health
  norm_num

/-- Witness for C7 on a provider with an empty statistics dictionary. -/
theorem missing_mean_defaults_to_zero_witness :
    ∃ resp,
      (get_ndvi_stats sampleRequest sampleProviderNoStats).2 =
        Except.ok resp ∧
      resp.ndvi_stats.mean_ndvi = 0 ∧
      resp.ndvi_stats.health_status = "Severe Stress / Bare Soil" :=
  missing_mean_defaults_to_zero sampleRequest sampleProviderNoStats
    (by norm_num [sampleRequest]) (by norm_num [sampleRequest])
    (by decide) (by decide) (by decide) rfl

/-- C8: in a successful image-endpoint run, the visualization parameters
passed to the thumbnail renderer are the fixed constant (range 0 to 1,
the 5-color palette red/orange/yellow/green/darkgreen, dimensions 800x600,
PNG), independent of the requested image_width and image_height; the
requested dimensions reach the output only through the later resampling
step, whose result is exactly the requested size in RGB. -/
theorem vis_params_constant (req : LocationRequest) (p : EEProvider)
    (hlat : -90 ≤ req.latitude ∧ req.latitude ≤ 90)
    (hlon : -180 ≤ req.longitude ∧ req.longitude ≤ 180)
    (hsz : p.collectionSize ≠ 0)
    (hb8 : "B8" ∈ p.bandNames) (hb4 : "B4" ∈ p.bandNames) :
    EEEvent.getThumbURL ndviVisParams ∈ (generate_ndvi_image req p).1 ∧
    (∀ v, EEEvent.getThumbURL v ∈ (generate_ndvi_image req p).1 →
      v = ndviVisParams) ∧
    ndviVisParams =
      VisParams.mk 0 1 ["red", "orange", "yellow", "green", "darkgreen"]
        "800x600" "png" ∧
    (generate_ndvi_image req p).2.2 =
      Except.ok (PILImage.mk "RGB" req.image_width req.image_height) := by
  rw [generate_ndvi_image_success req p hlat hlon hsz hb8 hb4]
  refine ⟨?_, ?_, rfl, ?_⟩
  · simp [successTrace]
  · intro v hv
    simp [successTrace] at hv
    exact hv
  · show Except.ok
      (download_and_convert_image p.thumbImage req.image_width
        req.image_height).2 = _
    rw [download_and_convert_image_result]

/-- Witness for C8 on a concrete request and provider snapshot. -/
theorem vis_params_constant_witness :
    EEEvent.getThumbURL ndviVisParams ∈
      (generate_ndvi_image sampleRequest sampleProvider).1 ∧
    (generate_ndvi_image sampleRequest sampleProvider).2.2 =
      Except.ok (PILImage.mk "RGB" sampleRequest.image_width
        sampleRequest.image_height) := by
  have h := vis_params_constant sampleRequest sampleProvider
    (by norm_num [sampleRequest]) (by norm_num [sampleRequest])
    (by decide) (by decide) (by decide)
  exact ⟨h.1, h.2.2.2⟩

/-- C9: in a successful stats-endpoint run, each of the min, max and
standard-deviation statistics that is absent from the provider dictionary
defaults independently to 0 in the returned ndvi_stats record, and the
response always carries all four numeric statistics. -/
theorem stats_missing_defaults_zero (req : LocationRequest)
    (p : EEProvider)
    (hlat : -90 ≤ req.latitude ∧ req.latitude ≤ 90)
    (hlon : -180 ≤ req.longitude ∧ req.longitude ≤ 180)
    (hsz : p.collectionSize ≠ 0)
    (hb8 : "B8" ∈ p.bandNames) (hb4 : "B4" ∈ p.bandNames) :
    ∃ resp, (get_ndvi_stats req p).2 = Except.ok resp ∧
      (dictLookup p.statsDict "NDVI_min" = none →
        resp.ndvi_stats.min_ndvi = 0) ∧
      (dictLookup p.statsDict "NDVI_max" = none →
        resp.ndvi_stats.max_ndvi = 0) ∧
      (dictLookup p.statsDict "NDVI_stdDev" = none →
        resp.ndvi_stats.std_ndvi = 0) := by
  rw [get_ndvi_stats_success req p hlat hlon hsz hb8 hb4]
  refine ⟨_, rfl, ?_, ?_, ?_⟩
  · intro hx
    show dictGet p.statsDict "NDVI_min" 0 = 0
    unfold dictGet
    rw [hx]
  · intro hx
    show dictGet p.statsDict "NDVI_max" 0 = 0
    unfold dictGet
    rw [hx]
  · intro hx
    show dictGet p.statsDict "NDVI_stdDev" 0 = 0
    unfold dictGet
    rw [hx]

/-- Witness for C9 on a provider with an empty statistics dictionary. -/
theorem stats_missing_defaults_zero_witness :
    ∃ resp,
      (get_ndvi_stats sampleRequest sampleProviderNoStats).2 =
        Except.ok resp ∧
      (dictLookup sampleProviderNoStats.statsDict "NDVI_min" = none →
        resp.ndvi_stats.min_ndvi = 0) ∧
      (dictLookup sampleProviderNoStats.statsDict "NDVI_max" = none →
        resp.ndvi_stats.max_ndvi = 0) ∧
      (dictLookup sampleProviderNoStats.statsDict "NDVI_stdDev" = none →
        resp.ndvi_stats.std_ndvi = 0) :=
  stats_missing_defaults_zero sampleRequest sampleProviderNoStats
    (by norm_num [sampleRequest]) (by norm_num [sampleRequest])
    (by decide) (by decide) (by decide)

/-- C10: on success the stats endpoint echoes its inputs unchanged: the
response location carries the request latitude, longitude and buffer
distance, analysis_period_days equals days_back, and status is the string
success. -/
theorem stats_response_echoes_inputs (req : LocationRequest)
    (p : EEProvider)
    (hlat : -90 ≤ req.latitude ∧ req.latitude ≤ 90)
    (hlon : -180 ≤ req.longitude ∧ req.longitude ≤ 180)
    (hsz : p.collectionSize ≠ 0)
    (hb8 : "B8" ∈ p.bandNames) (hb4 : "B4" ∈ p.bandNames) :
    ∃ resp, (get_ndvi_stats req p).2 = Except.ok resp ∧
      resp.location.latitude = req.latitude ∧
      resp.location.longitude = req.longitude ∧
      resp.location.buffer_distance_m = req.buffer_distance ∧
      resp.ndvi_stats.analysis_period_days = req.days_back ∧
      resp.status = "success" := by
  rw [get_ndvi_stats_success req p hlat hlon hsz hb8 hb4]
  exact ⟨_, rfl, rfl, rfl, rfl, rfl, rfl⟩

/-- Witness for C10 on a concrete request and provider snapshot. -/
theorem stats_response_echoes_inputs_witness :
    ∃ resp,
      (get_ndvi_stats sampleRequest sampleProvider).2 = Except.ok resp ∧
      resp.location.latitude = sampleRequest.latitude ∧
      resp.location.longitude = sampleRequest.longitude ∧
      resp.location.buffer_distance_m = sampleRequest.buffer_distance ∧
      resp.ndvi_stats.analysis_period_days = sampleRequest.days_back ∧
      resp.status = "success" :=
  stats_response_echoes_inputs sampleRequest sampleProvider
    (by norm_num [sampleRequest]) (by norm_num [sampleRequest])
    (by decide) (by decide) (by decide)
